import Mathlib

/-!
Verification of the Sound-to-Text transcription app (single React component
in `App.tsx` plus `types.ts`).  The component's state and handlers are
shallowly embedded as pure Lean functions:

* React state hooks and `useRef` cells become fields of `AppState`;
* `stopRecording`, `startRecording`, `onmessage`, `onerror`, `onclose` and
  `handleToggleRecording` become state-transition functions;
* the implicit queuing of `session.sendRealtimeInput` behind the pending
  `sessionPromise` (every frame handler does `sessionPromise.then(send)`)
  becomes an explicit FIFO pending buffer (`SendChannel`), matching
  JavaScript promise-callback ordering: callbacks registered while the
  promise is pending run in registration order at resolution, and
  callbacks registered afterwards run after those, still in order;
* the asynchronous start-up flow is indexed by a `StartOutcome` saying at
  which step (if any) the `try` block of `startRecording` failed.
-/

/-- Models JavaScript `String.prototype.trim`: drop whitespace from both
ends of the string.  (Lean's own `String.trim` is extensionally the same
on the inputs used here but does not reduce inside the kernel.) -/
def jsTrim (s : String) : String :=
  ⟨((s.data.dropWhile Char.isWhitespace).reverse.dropWhile Char.isWhitespace).reverse⟩

/-- Concatenation of a list of strings in order, `["a","b"] ↦ "ab"`. -/
def sConcat (ds : List String) : String :=
  ds.foldr (fun a b => a ++ b) ""

/-- The React component's state: the five `useState` hooks and the four
`useRef` cells of `App.tsx`, plus two observables of the environment that
the component interacts with but does not store (`sessionOpen`: whether
the remote live connection is currently open; `framesSent`: the audio
frames handed to `session.sendRealtimeInput` by the script-processor
callback, identified by sequence number).  `audioContextRef` stores
whether the held `AudioContext` is in the terminal closed state
(`some true` = held and closed, `some false` = held and running). -/
structure AppState where
  isRecording : Bool
  isConnecting : Bool
  transcriptHistory : List String
  currentTranscript : String
  sessionRef : Option Unit
  streamRef : Option Unit
  scriptProcessorRef : Option Unit
  audioContextRef : Option Bool
  sessionOpen : Bool
  framesSent : List Nat
deriving DecidableEq

/-- The transcript-commit step inlined at the end of `stopRecording`
(`App.tsx` lines 38–43): if the current transcript is non-empty after
trimming, push the trimmed text onto the history; either way the current
transcript becomes empty. -/
def commit (history : List String) (current : String) : List String × String :=
  if jsTrim current ≠ "" then (history ++ [jsTrim current], "") else (history, "")

/-- `if (audioContextRef.current && audioContextRef.current.state !== 'closed')`:
the context is closed and the ref nulled only when it is held and not
already closed; a held, already-closed context is left in the ref. -/
def closeAudioCtx : Option Bool → Option Bool
  | none => none
  | some closed => if closed then some closed else none

/-- `stopRecording` (`App.tsx` lines 19–44): close the session if present,
stop the stream tracks if present, disconnect the script processor if
present, close the audio context if present and not closed, clear both
flags, then run the commit step on the transcript.  Closing the session
(when one is held) ends the open connection. -/
def stopRecording (s : AppState) : AppState :=
  { isRecording := false
    isConnecting := false
    transcriptHistory := (commit s.transcriptHistory s.currentTranscript).1
    currentTranscript := (commit s.transcriptHistory s.currentTranscript).2
    sessionRef := none
    streamRef := none
    scriptProcessorRef := none
    audioContextRef := closeAudioCtx s.audioContextRef
    sessionOpen := if s.sessionRef.isSome then false else s.sessionOpen
    framesSent := s.framesSent }

/-- The user-visible `alert` notifications the component can produce. -/
inductive Alert
  | startFailed
  | apiError
deriving DecidableEq

/-- At which step, if any, the `try` block of `startRecording` fails:
missing API key, `getUserMedia` rejection, `ai.live.connect` rejection,
or none (the connection opens). -/
inductive StartOutcome
  | noApiKey
  | deviceError
  | connectError
  | opened
deriving DecidableEq

/-- The unconditional synchronous prefix of `startRecording` (lines 47–49):
`setIsConnecting(true); setCurrentTranscript(''); setTranscriptHistory([])`,
before any resource is touched. -/
def startReset (s : AppState) : AppState :=
  { s with isConnecting := true, currentTranscript := "", transcriptHistory := [] }

/-- Lines 54–58 of `startRecording`: the media stream is acquired and a
running audio context created, both stored in their refs. -/
def acquireMedia (s : AppState) : AppState :=
  { s with streamRef := some (), audioContextRef := some false }

/-- The `onopen` callback body (lines 68–84) together with the subsequent
`sessionRef.current = await sessionPromise` (line 108): the script
processor is created, its frame handler attached and stored in the ref,
then `isConnecting` is cleared and `isRecording` set; the connection is
now open and the resolved session handle is stored. -/
def onopenStep (s : AppState) : AppState :=
  { s with scriptProcessorRef := some ()
           isConnecting := false
           isRecording := true
           sessionOpen := true
           sessionRef := some () }

/-- `startRecording` (lines 46–114), indexed by the outcome of its `try`
block.  Every failure is caught by the single `catch`, which produces the
generic failure `alert` and calls `stopRecording`.  Note that there is no
Idle guard: the reset prefix runs whatever the current state is. -/
def startRecording (o : StartOutcome) (s : AppState) : AppState × List Alert :=
  match o with
  | .noApiKey => (stopRecording (startReset s), [Alert.startFailed])
  | .deviceError => (stopRecording (startReset s), [Alert.startFailed])
  | .connectError => (stopRecording (acquireMedia (startReset s)), [Alert.startFailed])
  | .opened => (onopenStep (acquireMedia (startReset s)), [])

/-- The `onmessage` callback (lines 86–92): a message carrying an
`inputTranscription` delta (`some t`) appends `t` to the current
transcript; any other server message is ignored. -/
def onmessage (m : Option String) (s : AppState) : AppState :=
  match m with
  | some t => { s with currentTranscript := s.currentTranscript ++ t }
  | none => s

/-- The `onerror` callback (lines 93–97): alert the user, then run the
common `stopRecording` path. -/
def onerrorHandler (s : AppState) : AppState × List Alert :=
  (stopRecording s, [Alert.apiError])

/-- The `onclose` callback (lines 98–100): run the common `stopRecording`
path, with no user notification. -/
def oncloseHandler (s : AppState) : AppState × List Alert :=
  (stopRecording s, [])

/-- Which of the two handlers a button press dispatches to. -/
inductive ToggleAction
  | stop
  | start
deriving DecidableEq

/-- `handleToggleRecording` (lines 116–122): pressing the button calls
`stopRecording` when recording or connecting, and `startRecording`
otherwise.  This caller-side guard is the only Idle check in the code. -/
def handleToggleRecording (s : AppState) : ToggleAction :=
  if s.isRecording || s.isConnecting then ToggleAction.stop else ToggleAction.start

/-- The component's initial state: both flags false, empty transcript and
history, all refs null, no open connection, no frames sent. -/
def initState : AppState :=
  ⟨false, false, [], "", none, none, none, none, false, []⟩

/-- The controller is idle: not recording, not connecting, empty current
transcript, and no held resources — the state `stopRecording` leaves
behind (up to committed history) and the state the component starts in. -/
def IsIdle (s : AppState) : Prop :=
  s.isRecording = false ∧ s.isConnecting = false ∧ s.currentTranscript = "" ∧
    s.sessionRef = none ∧ s.streamRef = none ∧ s.scriptProcessorRef = none ∧
    s.audioContextRef = none

lemma jsTrim_empty : jsTrim "" = "" := rfl

lemma commit_snd (h : List String) (c : String) : (commit h c).2 = "" := by
  unfold commit
  split <;> rfl

lemma commit_empty (h : List String) : commit h "" = (h, "") := by
  simp [commit, jsTrim_empty]

lemma closeAudioCtx_idem (o : Option Bool) :
    closeAudioCtx (closeAudioCtx o) = closeAudioCtx o := by
  rcases o with _ | b
  · rfl
  · cases b <;> rfl

/-- C1: each run of the stop path performs the commit step exactly once:
the current transcript is cleared; when its trimmed form is non-empty the
history is extended by exactly that one element, and when it is empty the
history is untouched. -/
theorem stop_commits_exactly_once (s : AppState) :
    (stopRecording s).currentTranscript = "" ∧
    (jsTrim s.currentTranscript ≠ "" →
      (stopRecording s).transcriptHistory
        = s.transcriptHistory ++ [jsTrim s.currentTranscript]) ∧
    (jsTrim s.currentTranscript = "" →
      (stopRecording s).transcriptHistory = s.transcriptHistory) := by
  refine ⟨commit_snd _ _, ?_, ?_⟩ <;> intro h <;> simp [stopRecording, commit, h]

/-- C1 witness: at `current = " hi "`, `history = ["a"]`, the stop path
appends the trimmed text once; at `current = "  "` it leaves history
alone; in both cases `current` is cleared. -/
theorem stop_commits_exactly_once_witness :
    (stopRecording ⟨true, false, ["a"], " hi ", some (), some (), some (), some false,
        true, []⟩).transcriptHistory = ["a", "hi"] ∧
    (stopRecording ⟨true, false, ["a"], "  ", some (), some (), some (), some false,
        true, []⟩).transcriptHistory = ["a"] ∧
    (stopRecording ⟨true, false, ["a"], " hi ", some (), some (), some (), some false,
        true, []⟩).currentTranscript = "" := by
  refine ⟨?_, ?_, ?_⟩
  · have h := (stop_commits_exactly_once
      ⟨true, false, ["a"], " hi ", some (), some (), some (), some false, true, []⟩).2.1
      (by decide)
    simpa using h
  · have h := (stop_commits_exactly_once
      ⟨true, false, ["a"], "  ", some (), some (), some (), some false, true, []⟩).2.2
      (by decide)
    simpa using h
  · exact (stop_commits_exactly_once
      ⟨true, false, ["a"], " hi ", some (), some (), some (), some false, true, []⟩).1

/-- C2: `stopRecording` is idempotent — a second consecutive call changes
nothing — and calling it from the Idle state is a no-op.  (The embedding
is a total function, so the call cannot throw; each cleanup branch tests
its own ref and runs regardless of the others.) -/
theorem stop_idempotent (s : AppState) :
    stopRecording (stopRecording s) = stopRecording s ∧
    (IsIdle s → stopRecording s = s) := by
  constructor
  · simp [stopRecording, commit_snd, commit_empty, closeAudioCtx_idem]
  · rintro ⟨h1, h2, h3, h4, h5, h6, h7⟩
    rcases s with ⟨rec, conn, hist, cur, sess, str, proc, ctx, so, fr⟩
    simp only at h1 h2 h3 h4 h5 h6 h7
    subst h1 h2 h3 h4 h5 h6 h7
    simp [stopRecording, commit_empty, closeAudioCtx]

/-- C2 witness: from the initial (Idle) state, one stop is a no-op and a
second stop changes nothing. -/
theorem stop_idempotent_witness :
    stopRecording (stopRecording initState) = stopRecording initState ∧
    stopRecording initState = initState :=
  ⟨(stop_idempotent initState).1,
   (stop_idempotent initState).2 ⟨rfl, rfl, rfl, rfl, rfl, rfl, rfl⟩⟩

/-- A reachable non-Idle (recording) state with committed history: the
user is mid-stream with one finalized utterance. -/
def streamingState : AppState :=
  ⟨true, false, ["x"], "y", some (), some (), some (), some false, true, []⟩

/-- C3 counterexample: `startRecording` has no Idle guard.  Called while
recording, it does not leave the state unchanged (it wipes the transcript
and re-enters the connecting flow), refuting "start() called while not
Idle is a no-op" for the `startRecording` function itself. -/
theorem start_not_idle_changes_state :
    streamingState.isRecording = true ∧
    (startRecording StartOutcome.opened streamingState).1 ≠ streamingState := by
  refine ⟨rfl, ?_⟩
  decide

/-- C3 amended: the Idle guard lives in the only caller.
`handleToggleRecording` dispatches to `stopRecording` whenever the state
is recording or connecting, and dispatches to `startRecording` only from
Idle — so no duplicate session is opened through the UI, but
`startRecording` itself, invoked while not Idle, does mutate state. -/
theorem toggle_guards_start (s : AppState) :
    ((s.isRecording || s.isConnecting) = true →
      handleToggleRecording s = ToggleAction.stop) ∧
    ((s.isRecording || s.isConnecting) = false →
      handleToggleRecording s = ToggleAction.start) := by
  cases h : s.isRecording || s.isConnecting <;>
    simp [handleToggleRecording, h]

/-- C3 witness: from the recording state the toggle stops; from the
initial Idle state it starts. -/
theorem toggle_guards_start_witness :
    handleToggleRecording streamingState = ToggleAction.stop ∧
    handleToggleRecording initState = ToggleAction.start :=
  ⟨(toggle_guards_start streamingState).1 rfl,
   (toggle_guards_start initState).2 rfl⟩

/-- An Idle state holding the history committed by an earlier session. -/
def idleWithHistory : AppState :=
  ⟨false, false, ["x"], "", none, none, none, none, false, []⟩

/-- C4 counterexample: a `start()` that fails at device acquisition does
not leave `history` unchanged — `startRecording` clears the history on
entry (line 49), so the pre-existing `["x"]` is lost. -/
theorem failed_start_clears_history :
    (startRecording StartOutcome.deviceError idleWithHistory).1.transcriptHistory
      ≠ idleWithHistory.transcriptHistory := by
  decide

/-- C4 amended: if `start()` fails at device acquisition or any later
step, the controller runs the full `stopRecording` unwind: the state
returns to Idle (flags cleared), no session is left open, the generic
start-failure alert is produced — but `history` is left empty, because
`startRecording` clears it on entry, rather than unchanged. -/
theorem failed_start_unwinds (o : StartOutcome) (s : AppState)
    (h : o ≠ StartOutcome.opened) :
    (startRecording o s).1.isRecording = false ∧
    (startRecording o s).1.isConnecting = false ∧
    (startRecording o s).1.sessionRef = none ∧
    (startRecording o s).1.streamRef = none ∧
    (startRecording o s).1.scriptProcessorRef = none ∧
    (startRecording o s).1.transcriptHistory = [] ∧
    (startRecording o s).1.currentTranscript = "" ∧
    (startRecording o s).2 = [Alert.startFailed] := by
  cases o with
  | opened => exact absurd rfl h
  | noApiKey =>
      simp [startRecording, stopRecording, startReset, commit_empty]
  | deviceError =>
      simp [startRecording, stopRecording, startReset, commit_empty]
  | connectError =>
      simp [startRecording, stopRecording, startReset, acquireMedia, commit_empty]

/-- C4 witness: a device-acquisition failure from the Idle state with
prior history unwinds to Idle, empty history, and one failure alert. -/
theorem failed_start_unwinds_witness :
    (startRecording StartOutcome.deviceError idleWithHistory).1.isRecording = false ∧
    (startRecording StartOutcome.deviceError idleWithHistory).1.sessionRef = none ∧
    (startRecording StartOutcome.deviceError idleWithHistory).1.transcriptHistory = [] ∧
    (startRecording StartOutcome.deviceError idleWithHistory).2 = [Alert.startFailed] := by
  have h := failed_start_unwinds StartOutcome.deviceError idleWithHistory (by decide)
  exact ⟨h.1, h.2.2.1, h.2.2.2.2.2.1, h.2.2.2.2.2.2.2⟩

/-- C9: every call to `startRecording`, whatever its outcome, clears both
the current transcript and the history in its unconditional prefix
`startReset`, which touches no resource ref; consequently the history
held when `start()` is called never survives it — after any outcome the
history is empty. -/
theorem start_clears_transcript (o : StartOutcome) (s : AppState) :
    (startReset s).currentTranscript = "" ∧
    (startReset s).transcriptHistory = [] ∧
    (startReset s).sessionRef = s.sessionRef ∧
    (startReset s).streamRef = s.streamRef ∧
    (startReset s).scriptProcessorRef = s.scriptProcessorRef ∧
    (startReset s).audioContextRef = s.audioContextRef ∧
    (startRecording o s).1.transcriptHistory = [] := by
  refine ⟨rfl, rfl, rfl, rfl, rfl, rfl, ?_⟩
  cases o <;>
    simp [startRecording, stopRecording, startReset, acquireMedia, onopenStep,
      commit_empty]

/-- C10: a remote error during Streaming drives the controller through
exactly the same `stopRecording` path as a remote close — the resulting
states are identical — differing only in user messaging (`onerror` alerts,
`onclose` does not); after either, the flags are down and the next toggle
dispatches to `startRecording`, so the system is immediately
restartable. -/
theorem onerror_matches_onclose (s : AppState) :
    (onerrorHandler s).1 = stopRecording s ∧
    (oncloseHandler s).1 = stopRecording s ∧
    (onerrorHandler s).1 = (oncloseHandler s).1 ∧
    (onerrorHandler s).2 = [Alert.apiError] ∧
    (oncloseHandler s).2 = [] ∧
    (onerrorHandler s).1.isRecording = false ∧
    (onerrorHandler s).1.isConnecting = false ∧
    handleToggleRecording (onerrorHandler s).1 = ToggleAction.start := by
  refine ⟨rfl, rfl, rfl, rfl, rfl, rfl, rfl, ?_⟩
  simp [handleToggleRecording, onerrorHandler, stopRecording]

lemma foldl_onmessage (ds : List String) (s : AppState) :
    (ds.foldl (fun t d => onmessage (some d) t) s).currentTranscript
        = s.currentTranscript ++ sConcat ds ∧
    (ds.foldl (fun t d => onmessage (some d) t) s).transcriptHistory
        = s.transcriptHistory := by
  induction ds generalizing s with
  | nil => simp [sConcat]
  | cons d ds ih =>
      have h := ih (onmessage (some d) s)
      simpa [onmessage, sConcat, String.append_assoc] using h

/-- C5: after any sequence of transcript deltas arriving (via `onmessage`)
on an empty current transcript, the stop path's commit grows the history
by at most one element; when it grows, the new element is the trimmed
concatenation of the deltas in arrival order, and nothing is added when
that trimmed concatenation is empty. -/
theorem deltas_commit_once (s : AppState) (ds : List String)
    (h : s.currentTranscript = "") :
    (stopRecording (ds.foldl (fun t d => onmessage (some d) t) s)).transcriptHistory.length
        ≤ s.transcriptHistory.length + 1 ∧
    (jsTrim (sConcat ds) ≠ "" →
      (stopRecording (ds.foldl (fun t d => onmessage (some d) t) s)).transcriptHistory
        = s.transcriptHistory ++ [jsTrim (sConcat ds)]) ∧
    (jsTrim (sConcat ds) = "" →
      (stopRecording (ds.foldl (fun t d => onmessage (some d) t) s)).transcriptHistory
        = s.transcriptHistory) := by
  obtain ⟨hcur, hhist⟩ := foldl_onmessage ds s
  rw [h] at hcur
  simp only [String.empty_append] at hcur
  have hmain := stop_commits_exactly_once (ds.foldl (fun t d => onmessage (some d) t) s)
  rw [hcur, hhist] at hmain
  refine ⟨?_, hmain.2.1, hmain.2.2⟩
  by_cases hne : jsTrim (sConcat ds) = ""
  · simp [hmain.2.2 hne]
  · simp [hmain.2.1 hne]

/-- C5 witness: on the deltas "Hel", "lo ", " world" the history gains
exactly the trimmed concatenation; on the single blank delta "  " it is
unchanged. -/
theorem deltas_commit_once_witness :
    (stopRecording (["Hel", "lo ", " world"].foldl (fun t d => onmessage (some d) t)
        idleWithHistory)).transcriptHistory = ["x", "Hello  world"] ∧
    (stopRecording (["  "].foldl (fun t d => onmessage (some d) t)
        idleWithHistory)).transcriptHistory = ["x"] := by
  constructor
  · have h := (deltas_commit_once idleWithHistory ["Hel", "lo ", " world"] rfl).2.1
      (by decide)
    simpa using h
  · have h := (deltas_commit_once idleWithHistory ["  "] rfl).2.2 (by decide)
    simpa using h

/-- The send side of the session, as the explicit FIFO queue behind
`sessionPromise.then((session) => session.sendRealtimeInput(...))`
(lines 76–78): while the connection future is unresolved, frames pile up
in `pending` in registration order; resolution flushes them, in order,
into `sent`; frames sent after resolution go straight to `sent`. -/
structure SendChannel (α : Type) where
  resolved : Bool
  pending : List α
  sent : List α
deriving DecidableEq

/-- One `sessionPromise.then(send frame)` call from `onaudioprocess`. -/
def sendFrame {α : Type} (c : SendChannel α) (f : α) : SendChannel α :=
  if c.resolved then { c with sent := c.sent ++ [f] }
  else { c with pending := c.pending ++ [f] }

/-- Resolution of `sessionPromise`: every pending callback runs, in
registration order, transmitting its frame. -/
def resolveSession {α : Type} (c : SendChannel α) : SendChannel α :=
  { resolved := true, pending := [], sent := c.sent ++ c.pending }

/-- The channel as it exists when `ai.live.connect` is called: unresolved,
nothing queued, nothing transmitted. -/
def newChannel (α : Type) : SendChannel α :=
  ⟨false, [], []⟩

lemma foldl_sendFrame_pending {α : Type} (l : List α) (c : SendChannel α)
    (h : c.resolved = false) :
    l.foldl sendFrame c = ⟨false, c.pending ++ l, c.sent⟩ := by
  induction l generalizing c with
  | nil => cases c; simp_all
  | cons a l ih =>
      simp only [List.foldl_cons]
      rw [show sendFrame c a = ⟨false, c.pending ++ [a], c.sent⟩ by
        simp [sendFrame, h]]
      rw [ih ⟨false, c.pending ++ [a], c.sent⟩ rfl]
      simp

lemma foldl_sendFrame_resolved {α : Type} (l : List α) (c : SendChannel α)
    (h : c.resolved = true) :
    l.foldl sendFrame c = ⟨true, c.pending, c.sent ++ l⟩ := by
  induction l generalizing c with
  | nil => cases c; simp_all
  | cons a l ih =>
      simp only [List.foldl_cons]
      rw [show sendFrame c a = ⟨true, c.pending, c.sent ++ [a]⟩ by
        simp [sendFrame, h]]
      rw [ih ⟨true, c.pending, c.sent ++ [a]⟩ rfl]
      simp

/-- C6: frames sent while the connection future is pending are never
dropped and are flushed FIFO at resolution: for any frames `pre` produced
before the future resolves and any frames `post` produced after, the
transmitted sequence is exactly `pre ++ post` — every pre-open frame, in
production order, before every post-open frame. -/
theorem pending_frames_fifo {α : Type} (pre post : List α) :
    (post.foldl sendFrame (resolveSession (pre.foldl sendFrame (newChannel α)))).sent
      = pre ++ post ∧
    (resolveSession (pre.foldl sendFrame (newChannel α))).pending = [] := by
  rw [foldl_sendFrame_pending pre (newChannel α) rfl]
  constructor
  · rw [foldl_sendFrame_resolved post _ rfl]
    simp [resolveSession, newChannel]
  · rfl

/-- The externally delivered events of one controller run, serialized onto
the single-threaded event queue: a button press, the resource-acquisition
and failure continuations of `startRecording`, the session callbacks, and
one `onaudioprocess` firing carrying frame number `n`. -/
inductive Ev
  | toggle
  | deviceReady
  | startFailure
  | opened
  | message (m : Option String)
  | frame (n : Nat)
  | errored
  | closed
deriving DecidableEq

/-- One event of the run.  `toggle` dispatches per
`handleToggleRecording`; `deviceReady` is the resumption after
`getUserMedia` and context creation succeed; `startFailure` is the
`catch` block; `opened`/`message`/`errored`/`closed` are the session
callbacks.  A `frame` event appends to `framesSent` only when the script
processor's handler is attached — before attachment no handler exists, so
the event is a no-op. -/
def step (s : AppState) (e : Ev) : AppState :=
  match e with
  | .toggle =>
      match handleToggleRecording s with
      | .stop => stopRecording s
      | .start => startReset s
  | .deviceReady => acquireMedia s
  | .startFailure => stopRecording s
  | .opened => onopenStep s
  | .message m => onmessage m s
  | .frame n =>
      if s.scriptProcessorRef.isSome then { s with framesSent := s.framesSent ++ [n] }
      else s
  | .errored => stopRecording s
  | .closed => stopRecording s

/-- The state after a sequence of events from the component's initial
state. -/
def run (es : List Ev) : AppState :=
  es.foldl step initState

/-- The streaming safety invariant: the frame handler is attached only
while the connection is open, and the controller is in the Streaming
state (`isRecording`) only with the handler attached. -/
def StreamInv (s : AppState) : Prop :=
  (s.scriptProcessorRef.isSome = true → s.sessionOpen = true) ∧
  (s.isRecording = true → s.scriptProcessorRef.isSome = true)

lemma streamInv_stopRecording (s : AppState) : StreamInv (stopRecording s) := by
  constructor <;> intro h <;> simp [stopRecording] at h

lemma streamInv_step (s : AppState) (e : Ev) (h : StreamInv s) :
    StreamInv (step s e) := by
  cases e with
  | toggle =>
      cases htr : handleToggleRecording s with
      | stop =>
          simp only [step, htr]
          exact streamInv_stopRecording s
      | start =>
          simp only [step, htr]
          exact ⟨h.1, h.2⟩
  | deviceReady => exact ⟨h.1, h.2⟩
  | startFailure => exact streamInv_stopRecording s
  | opened => exact ⟨fun _ => rfl, fun _ => rfl⟩
  | message m =>
      cases m
      · exact h
      · exact ⟨h.1, h.2⟩
  | frame n =>
      by_cases hp : s.scriptProcessorRef.isSome = true
      · simp only [step, hp, if_true]
        exact ⟨h.1, h.2⟩
      · simp only [step, hp, if_false]
        exact h
  | errored => exact streamInv_stopRecording s
  | closed => exact streamInv_stopRecording s

lemma streamInv_foldl (es : List Ev) (s : AppState) (h : StreamInv s) :
    StreamInv (es.foldl step s) := by
  induction es generalizing s with
  | nil => exact h
  | cons e es ih => exact ih (step s e) (streamInv_step s e h)

lemma streamInv_run (es : List Ev) : StreamInv (run es) :=
  streamInv_foldl es initState ⟨fun h => by simp [initState] at h, fun h => by
    simp [initState] at h⟩

/-- C7: in every run from the initial state, the frame handler is
attached only after the open event (whenever it is attached, the
connection is open), the controller is Streaming only with the handler
attached (`onopen` attaches it before `setIsRecording(true)` runs), and a
frame event with no handler attached produces nothing — so audio frames
are produced only while a session exists. -/
theorem frames_only_after_open (es : List Ev) :
    ((run es).scriptProcessorRef.isSome = true → (run es).sessionOpen = true) ∧
    ((run es).isRecording = true → (run es).scriptProcessorRef.isSome = true) ∧
    (∀ n : Nat, (run es).scriptProcessorRef = none → step (run es) (Ev.frame n) = run es) := by
  refine ⟨(streamInv_run es).1, (streamInv_run es).2, ?_⟩
  intro n h
  simp [step, h]

/-- C7 witness: after toggle–deviceReady–opened the processor is attached
and the session is indeed open; in the initial state (no processor) a
frame event is a no-op. -/
theorem frames_only_after_open_witness :
    (run [Ev.toggle, Ev.deviceReady, Ev.opened]).sessionOpen = true ∧
    step (run []) (Ev.frame 0) = run [] := by
  constructor
  · exact (frames_only_after_open [Ev.toggle, Ev.deviceReady, Ev.opened]).1 (by decide)
  · exact (frames_only_after_open []).2.2 0 (by decide)

/-- Modelled from the spec: `App.tsx` imports `createBlob` from
`./utils/audio`, a file not present among the repository sources, so the
AudioFrameEncoder's sample conversion is taken from §4.1 of the spec:
each floating-point sample (modelled as a rational) is converted by
linear scaling `round(sample * 32767)` and clamped to the representable
signed 16-bit range `[-32767, 32767]`. -/
def encodeSample (x : ℚ) : ℤ :=
  max (-32767) (min 32767 (round (x * 32767)))

/-- Modelled from the spec: `createBlob` applies the sample conversion to
every sample of the input buffer. -/
def encode (samples : List ℚ) : List ℤ :=
  samples.map encodeSample

/-- C8: the encoder is a total (hence never-failing) deterministic
function; every output lies in `[-32767, 32767]`; on in-range samples it
is exactly `round(sample * 32767)`; samples at or beyond `±1.0` clamp to
the boundary — they never wrap. -/
theorem encodeSample_clamped (x : ℚ) :
    -32767 ≤ encodeSample x ∧ encodeSample x ≤ 32767 ∧
    (-1 ≤ x → x ≤ 1 → encodeSample x = round (x * 32767)) ∧
    (1 ≤ x → encodeSample x = 32767) ∧
    (x ≤ -1 → encodeSample x = -32767) ∧
    encode [x] = [encodeSample x] := by
  refine ⟨le_max_left _ _, max_le (by norm_num) (min_le_left _ _), ?_, ?_, ?_, rfl⟩
  · intro h1 h2
    have hlo : (-32767 : ℤ) ≤ round (x * 32767) := by
      rw [round_eq]
      apply Int.le_floor.mpr
      push_cast
      linarith
    have hhi : round (x * 32767) ≤ 32767 := by
      have : round (x * 32767) < 32768 := by
        rw [round_eq]
        apply Int.floor_lt.mpr
        push_cast
        linarith
      omega
    unfold encodeSample
    rw [min_eq_right hhi, max_eq_right hlo]
  · intro h1
    have hge : (32767 : ℤ) ≤ round (x * 32767) := by
      rw [round_eq]
      apply Int.le_floor.mpr
      push_cast
      linarith
    unfold encodeSample
    rw [min_eq_left hge, max_eq_right (by norm_num)]
  · intro h1
    have hle : round (x * 32767) ≤ -32767 := by
      have : round (x * 32767) < -32766 := by
        rw [round_eq]
        apply Int.floor_lt.mpr
        push_cast
        linarith
      omega
    unfold encodeSample
    rw [min_eq_right (by omega), max_eq_left hle]

/-- C8 witness: `3/2` clamps to the upper boundary, `-3/2` to the lower,
and the in-range sample `1/2` converts by plain rounding. -/
theorem encodeSample_clamped_witness :
    encodeSample (3/2) = 32767 ∧ encodeSample (-3/2) = -32767 ∧
    encodeSample (1/2) = round ((1/2 : ℚ) * 32767) :=
  ⟨(encodeSample_clamped (3/2)).2.2.2.1 (by norm_num),
   (encodeSample_clamped (-3/2)).2.2.2.2.1 (by norm_num),
   (encodeSample_clamped (1/2)).2.2.1 (by norm_num) (by norm_num)⟩
